import Mathlib

/-!
Shallow embedding of the browser-side workflow controller of the
DSA-Auto-Code repository (src/templates/script.js), together with proofs
of its specified properties.

The script is a single-threaded DOM controller: a handful of async event
handlers that issue fetch calls to four endpoints and update DOM element
state. We embed the DOM state the handlers touch as an explicit record
(`UIState`), each fetch outcome as a value of an inductive type supplied
as an argument to the handler, and each handler as a pure function
returning the final state, a flag recording whether an unhandled promise
rejection escaped the handler (the source contains no try/catch), and the
list of HTTP requests the handler issued.
-/

namespace DsaAutoCode

/-- A generated problem draft as produced by the /generate endpoint:
title, topic, readme body and solution body. -/
structure Problem where
  title : String
  topic : String
  readme : String
  solution : String
deriving Repr, DecidableEq

/-- The DOM state read or written by the handlers in script.js.
Option lists are (label, value) pairs; status messages are
(text, kind) pairs appended by displayMessage. `deleteBeltValue` and
`deleteProblemValue` are the current values of the two delete-form
selectors (set by user interaction, read by the handlers). -/
structure UIState where
  loaderHidden : Bool
  verificationHidden : Bool
  selectorContainerHidden : Bool
  statusMessages : List (String × String)
  generateBusy : Bool
  commitBusy : Bool
  deleteBtnBusy : Bool
  generatedProblems : List Problem
  problemOptions : List (String × String)
  deleteProblemOptions : List (String × String)
  deleteProblemDisabled : Bool
  deleteBtnDisabled : Bool
  formTitle : String
  formTopic : String
  formReadme : String
  formSolution : String
  formBelt : String
  deleteBeltValue : String
  deleteProblemValue : String
deriving Repr, DecidableEq

/-- An HTTP request issued by a handler, with the form data it carries. -/
inductive Request where
  | generateReq (belt : String)
  | commitReq (title topic belt readme solution : String)
  | problemsReq (belt : String)
  | deleteReq (belt problem : String)
deriving Repr, DecidableEq

/-- Result of running one handler: the final UI state and whether an
unhandled promise rejection escaped the handler (the source never wraps
its awaits in try/catch, so a rejected awaited promise aborts the handler
at that point and surfaces as an unhandled rejection). -/
structure HandlerOutcome where
  state : UIState
  rejected : Bool
deriving Repr, DecidableEq

/-- displayMessage(message, type): appends a kind-tagged transient element
to the shared status container. (The timed auto-removal is not modelled;
no claim concerns it.) -/
def displayMessage (s : UIState) (message kind : String) : UIState :=
  { s with statusMessages := s.statusMessages ++ [(message, kind)] }

/-- populateVerificationForm(problemIndex): looks up
generatedProblems[problemIndex]; returns unchanged (early return) when the
lookup yields no item, otherwise copies the item's title/topic/readme/
solution into the review-form fields. -/
def populateVerificationForm (s : UIState) (problemIndex : Nat) : UIState :=
  match s.generatedProblems[problemIndex]? with
  | none => s
  | some problem =>
    { s with
      formTitle := problem.title
      formTopic := problem.topic
      formReadme := problem.readme
      formSolution := problem.solution }

/-- Outcome of the GET /problems/:belt fetch: the promise rejects
(network failure), resolves non-2xx (body never read by the handler), or
resolves 2xx with a JSON array of problem-folder names. -/
inductive ProblemsFetch where
  | reject
  | failure
  | success (names : List String)
deriving Repr, DecidableEq

/-- fetchProblemsForBelt(beltName): shows a loading placeholder and
disables the problem selector and delete button, fetches
/problems/:belt, then on 2xx with a non-empty list installs a placeholder
option plus one option per name and enables both controls; on 2xx with an
empty list shows the no-problems placeholder; on non-2xx shows the
error-loading placeholder; in the last two cases both controls stay
disabled. A rejected fetch aborts the function after the loading state was
installed. -/
def fetchProblemsForBelt (s : UIState) (beltName : String)
    (outcome : ProblemsFetch) : HandlerOutcome × List Request :=
  let s1 := { s with
    deleteProblemOptions := [("Loading...", "")]
    deleteProblemDisabled := true
    deleteBtnDisabled := true }
  match outcome with
  | .reject => (⟨s1, true⟩, [.problemsReq beltName])
  | .failure =>
      (⟨{ s1 with deleteProblemOptions := [("-- Error loading --", "")] }, false⟩,
        [.problemsReq beltName])
  | .success names =>
      if names.length > 0 then
        (⟨{ s1 with
            deleteProblemOptions :=
              ("-- Select a problem --", "") :: names.map (fun n => (n, n))
            deleteProblemDisabled := false
            deleteBtnDisabled := false }, false⟩,
          [.problemsReq beltName])
      else
        (⟨{ s1 with deleteProblemOptions := [("-- No problems found --", "")] }, false⟩,
          [.problemsReq beltName])

/-- JSON body of a 2xx /generate response: its array-of-problems reading
(empty when the body is not a non-empty array) and its optional top-level
message field. -/
structure GenBody where
  problems : List Problem
  message : Option String
deriving Repr, DecidableEq

/-- Outcome of the POST /generate fetch: rejected promise, non-2xx
response (body never read on that path), or 2xx response with a body. -/
inductive GenFetch where
  | reject
  | httpError
  | httpOk (body : GenBody)
deriving Repr, DecidableEq

/-- Model of await response.json() under the Fetch API: the response body
is a one-shot stream, so a first read yields the parsed body and any
subsequent read rejects (none). -/
def responseJson (body : GenBody) (alreadyRead : Bool) : Option GenBody :=
  if alreadyRead then none else some body

/-- Option label used when populating the problem selector:
p.title with the positional fallback from the source
(empty string is falsy in JS, so it falls back as well). -/
def problemOptionLabel (i : Nat) (p : Problem) : String :=
  if p.title = "" then "Problem " ++ toString (i + 1) else p.title

/-- The generate-form submit handler. Before the fetch it shows the
loader, hides the verification section and selector container, clears the
status container, and sets the submit button busy. A rejected fetch
aborts there (no try/catch). On a response it hides the loader and clears
the busy flag; on non-2xx it displays the hardcoded error message; on 2xx
it reads the body (first json() read), stores it in generatedProblems,
and either populates/reveals the selector and review form (non-empty
batch, with the submitted belt copied into the review belt field and the
form populated from item 0), or attempts a second json() read of the
already-consumed body, which rejects, to build the empty-batch message. -/
def generateSubmit (s : UIState) (belt : String) (outcome : GenFetch) :
    HandlerOutcome × List Request :=
  let s1 := { s with
    loaderHidden := false
    verificationHidden := true
    selectorContainerHidden := true
    statusMessages := []
    generateBusy := true }
  match outcome with
  | .reject => (⟨s1, true⟩, [.generateReq belt])
  | .httpError =>
      let s2 := { s1 with loaderHidden := true, generateBusy := false }
      (⟨displayMessage s2 "Error generating problems. Check server console." "error",
          false⟩,
        [.generateReq belt])
  | .httpOk body =>
      let s2 := { s1 with loaderHidden := true, generateBusy := false }
      match responseJson body false with
      | none => (⟨s2, true⟩, [.generateReq belt])
      | some parsed =>
        let s3 := { s2 with generatedProblems := parsed.problems }
        if parsed.problems.length > 0 then
          let s4 := { s3 with
            problemOptions := parsed.problems.enum.map
              (fun ip => (problemOptionLabel ip.1 ip.2, toString ip.1))
            selectorContainerHidden := false
            verificationHidden := false
            formBelt := belt }
          (⟨populateVerificationForm s4 0, false⟩, [.generateReq belt])
        else
          match responseJson body true with
          | none => (⟨s3, true⟩, [.generateReq belt])
          | some result =>
              (⟨displayMessage s3 (result.message.getD "AI generated no problems.")
                  "error", false⟩,
                [.generateReq belt])

/-- Outcome of a POST whose JSON body the handler always reads for a
message field (/commit and /delete): rejected promise, or a response with
its ok flag and the body's message. -/
inductive MsgFetch where
  | reject
  | response (ok : Bool) (message : String)
deriving Repr, DecidableEq

/-- commitForm.reset(): clears the form controls back to their defaults
(empty text fields, selector back to the empty first option). -/
def resetCommitForm (s : UIState) : UIState :=
  { s with
    formTitle := ""
    formTopic := ""
    formReadme := ""
    formSolution := ""
    formBelt := "" }

/-- The commit-form submit handler: sets the button busy, posts the
form's current live field values to /commit, clears the busy flag, reads
the JSON body, then on 2xx displays the server message as success, hides
the verification section and selector container, and resets the form; on
non-2xx displays the server message as error and changes nothing else. A
rejected fetch aborts with the busy flag still set. -/
def commitSubmit (s : UIState) (outcome : MsgFetch) :
    HandlerOutcome × List Request :=
  let s1 := { s with commitBusy := true }
  let req : Request :=
    .commitReq s.formTitle s.formTopic s.formBelt s.formReadme s.formSolution
  match outcome with
  | .reject => (⟨s1, true⟩, [req])
  | .response ok message =>
      let s2 := { s1 with commitBusy := false }
      if ok then
        let s3 := displayMessage s2 message "success"
        (⟨resetCommitForm
            { s3 with verificationHidden := true, selectorContainerHidden := true },
          false⟩, [req])
      else (⟨displayMessage s2 message "error", false⟩, [req])

/-- The delete-form submit handler. `confirmed` is the result of the
confirm() dialog: when false the handler returns immediately with no
effect. When true it sets the delete button busy, posts the form's belt
and problem values to /delete, clears the busy flag, reads the JSON body,
displays the server message (success or error kind by status), and on 2xx
re-runs fetchProblemsForBelt for the currently selected belt (not
awaited; `refreshOutcome` is that fetch's outcome). -/
def deleteSubmit (s : UIState) (confirmed : Bool) (outcome : MsgFetch)
    (refreshOutcome : ProblemsFetch) : HandlerOutcome × List Request :=
  if confirmed = false then (⟨s, false⟩, [])
  else
    let s1 := { s with deleteBtnBusy := true }
    let req : Request := .deleteReq s.deleteBeltValue s.deleteProblemValue
    match outcome with
    | .reject => (⟨s1, true⟩, [req])
    | .response ok message =>
        let s2 := { s1 with deleteBtnBusy := false }
        if ok then
          let s3 := displayMessage s2 message "success"
          let refresh := fetchProblemsForBelt s3 s.deleteBeltValue refreshOutcome
          (⟨refresh.1.state, refresh.1.rejected⟩, req :: refresh.2)
        else (⟨displayMessage s2 message "error", false⟩, [req])

/-- The delete-belt selector change handler: reads the new selector value
and calls fetchProblemsForBelt only when it is truthy (non-empty);
otherwise it does nothing. -/
def deleteBeltChange (s : UIState) (selectedBelt : String)
    (outcome : ProblemsFetch) : HandlerOutcome × List Request :=
  if selectedBelt = "" then (⟨s, false⟩, [])
  else fetchProblemsForBelt s selectedBelt outcome

/-- A concrete page state used to evaluate the handlers at concrete
inputs: the initial page (loader hidden, review and selector hidden, no
messages, nothing busy, empty batch, delete controls disabled). -/
def sampleState : UIState :=
  { loaderHidden := true
    verificationHidden := true
    selectorContainerHidden := true
    statusMessages := []
    generateBusy := false
    commitBusy := false
    deleteBtnBusy := false
    generatedProblems := []
    problemOptions := []
    deleteProblemOptions := []
    deleteProblemDisabled := true
    deleteBtnDisabled := true
    formTitle := ""
    formTopic := ""
    formReadme := ""
    formSolution := ""
    formBelt := ""
    deleteBeltValue := ""
    deleteProblemValue := "" }

/-- populateVerificationForm never changes any field outside the four
review-form text fields. -/
lemma populateVerificationForm_frame (s : UIState) (i : Nat) :
    (populateVerificationForm s i).loaderHidden = s.loaderHidden ∧
    (populateVerificationForm s i).verificationHidden = s.verificationHidden ∧
    (populateVerificationForm s i).selectorContainerHidden = s.selectorContainerHidden ∧
    (populateVerificationForm s i).statusMessages = s.statusMessages ∧
    (populateVerificationForm s i).generateBusy = s.generateBusy ∧
    (populateVerificationForm s i).generatedProblems = s.generatedProblems ∧
    (populateVerificationForm s i).problemOptions = s.problemOptions ∧
    (populateVerificationForm s i).formBelt = s.formBelt := by
  unfold populateVerificationForm
  split <;> simp

/-- C1 (counterexample): on the concrete initial page, a generate submit
whose fetch rejects leaves the loader visible and the submit button busy,
displays no status message, and escapes as an unhandled rejection — the
claimed guaranteed cleanup and catch-and-convert do not happen. -/
theorem generate_reject_skips_cleanup :
    (generateSubmit sampleState "White Belt" GenFetch.reject).1.state.loaderHidden = false ∧
    (generateSubmit sampleState "White Belt" GenFetch.reject).1.state.generateBusy = true ∧
    (generateSubmit sampleState "White Belt" GenFetch.reject).1.state.statusMessages = [] ∧
    (generateSubmit sampleState "White Belt" GenFetch.reject).1.rejected = true := by
  refine ⟨rfl, rfl, rfl, rfl⟩

/-- C1 (amended): the generate handler hides the loading indicator and
clears the busy flag for every response outcome (2xx or non-2xx), but a
network failure where the fetch rejects is not caught: the loader stays
visible, the busy flag stays set, no status message is produced, and the
rejection surfaces as an unhandled rejection. -/
theorem generate_cleanup_on_response (s : UIState) (belt : String) (body : GenBody) :
    ((generateSubmit s belt (GenFetch.httpOk body)).1.state.loaderHidden = true ∧
     (generateSubmit s belt (GenFetch.httpOk body)).1.state.generateBusy = false) ∧
    ((generateSubmit s belt GenFetch.httpError).1.state.loaderHidden = true ∧
     (generateSubmit s belt GenFetch.httpError).1.state.generateBusy = false) ∧
    ((generateSubmit s belt GenFetch.reject).1.state.loaderHidden = false ∧
     (generateSubmit s belt GenFetch.reject).1.state.generateBusy = true ∧
     (generateSubmit s belt GenFetch.reject).1.state.statusMessages = [] ∧
     (generateSubmit s belt GenFetch.reject).1.rejected = true) := by
  refine ⟨⟨?_, ?_⟩, ⟨rfl, rfl⟩, rfl, rfl, rfl, rfl⟩ <;>
  · cases h : body.problems with
    | nil => simp [generateSubmit, responseJson, displayMessage, h]
    | cons p rest =>
        simp [generateSubmit, responseJson, h, populateVerificationForm]

/-- C2 (code bug, evaluated at the failing input): a 2xx generate
response whose body is an empty array makes the handler read the
already-consumed response body a second time, so the handler dies with an
unhandled rejection, no status message is displayed (the structured
empty-batch message is dead code), and the review section and selector
stay hidden. -/
theorem generate_empty_batch_double_read :
    (generateSubmit sampleState "White Belt"
        (GenFetch.httpOk ⟨[], some "server text"⟩)).1.rejected = true ∧
    (generateSubmit sampleState "White Belt"
        (GenFetch.httpOk ⟨[], some "server text"⟩)).1.state.statusMessages = [] ∧
    (generateSubmit sampleState "White Belt"
        (GenFetch.httpOk ⟨[], some "server text"⟩)).1.state.verificationHidden = true ∧
    (generateSubmit sampleState "White Belt"
        (GenFetch.httpOk ⟨[], some "server text"⟩)).1.state.selectorContainerHidden = true := by
  refine ⟨rfl, rfl, rfl, rfl⟩

/-- C3: a 2xx generate response with a non-empty batch p :: rest replaces
generatedProblems with the batch, fills the selector with exactly one
option per item labelled by its title (or the positional fallback),
reveals the selector container and verification section, copies the
submitted belt into the review belt field, populates the review form from
item 0, and completes without rejection. -/
theorem generate_success_populates (s : UIState) (belt : String)
    (p : Problem) (rest : List Problem) (m : Option String) :
    (generateSubmit s belt (GenFetch.httpOk ⟨p :: rest, m⟩)).1.rejected = false ∧
    (generateSubmit s belt (GenFetch.httpOk ⟨p :: rest, m⟩)).1.state.generatedProblems
      = p :: rest ∧
    (generateSubmit s belt (GenFetch.httpOk ⟨p :: rest, m⟩)).1.state.problemOptions
      = (p :: rest).enum.map (fun ip => (problemOptionLabel ip.1 ip.2, toString ip.1)) ∧
    (generateSubmit s belt (GenFetch.httpOk ⟨p :: rest, m⟩)).1.state.problemOptions.length
      = (p :: rest).length ∧
    (generateSubmit s belt (GenFetch.httpOk ⟨p :: rest, m⟩)).1.state.selectorContainerHidden
      = false ∧
    (generateSubmit s belt (GenFetch.httpOk ⟨p :: rest, m⟩)).1.state.verificationHidden
      = false ∧
    (generateSubmit s belt (GenFetch.httpOk ⟨p :: rest, m⟩)).1.state.formBelt = belt ∧
    (generateSubmit s belt (GenFetch.httpOk ⟨p :: rest, m⟩)).1.state.formTitle = p.title ∧
    (generateSubmit s belt (GenFetch.httpOk ⟨p :: rest, m⟩)).1.state.formTopic = p.topic ∧
    (generateSubmit s belt (GenFetch.httpOk ⟨p :: rest, m⟩)).1.state.formReadme = p.readme ∧
    (generateSubmit s belt (GenFetch.httpOk ⟨p :: rest, m⟩)).1.state.formSolution
      = p.solution := by
  simp [generateSubmit, responseJson, populateVerificationForm]

/-- fetchProblemsForBelt never touches the status container, the busy
flag of the delete button, the batch, or the commit-form fields. -/
lemma fetchProblemsForBelt_frame (s : UIState) (belt : String)
    (o : ProblemsFetch) :
    (fetchProblemsForBelt s belt o).1.state.statusMessages = s.statusMessages ∧
    (fetchProblemsForBelt s belt o).1.state.deleteBtnBusy = s.deleteBtnBusy ∧
    (fetchProblemsForBelt s belt o).1.state.generatedProblems = s.generatedProblems ∧
    (fetchProblemsForBelt s belt o).1.state.formTitle = s.formTitle := by
  unfold fetchProblemsForBelt
  cases o with
  | reject => simp
  | failure => simp
  | success names => by_cases h : names.length > 0 <;> simp [h]

/-- The /problems request is the only request fetchProblemsForBelt
issues, whatever the outcome. -/
lemma fetchProblemsForBelt_requests (s : UIState) (belt : String)
    (o : ProblemsFetch) :
    (fetchProblemsForBelt s belt o).2 = [Request.problemsReq belt] := by
  unfold fetchProblemsForBelt
  cases o with
  | reject => simp
  | failure => simp
  | success names => by_cases h : names.length > 0 <;> simp [h]

/-- C4: after fetchProblemsForBelt, a 2xx response with names n :: rest
yields the placeholder option followed by one option per name (hence
exactly length + 1 options) with selector and delete button enabled; a
2xx response with an empty list yields the no-problems placeholder with
both disabled; a non-2xx response yields the error-loading placeholder
with both disabled; a rejected fetch also leaves both disabled — so the
controls are enabled only when the belt has at least one reported
problem. -/
theorem fetchProblemsForBelt_states (s : UIState) (belt : String)
    (n : String) (rest : List String) :
    ((fetchProblemsForBelt s belt (ProblemsFetch.success (n :: rest))).1.state.deleteProblemOptions
        = ("-- Select a problem --", "") :: (n :: rest).map (fun x => (x, x)) ∧
      (fetchProblemsForBelt s belt (ProblemsFetch.success (n :: rest))).1.state.deleteProblemOptions.length
        = (n :: rest).length + 1 ∧
      (fetchProblemsForBelt s belt (ProblemsFetch.success (n :: rest))).1.state.deleteProblemDisabled
        = false ∧
      (fetchProblemsForBelt s belt (ProblemsFetch.success (n :: rest))).1.state.deleteBtnDisabled
        = false) ∧
    ((fetchProblemsForBelt s belt (ProblemsFetch.success [])).1.state.deleteProblemOptions
        = [("-- No problems found --", "")] ∧
      (fetchProblemsForBelt s belt (ProblemsFetch.success [])).1.state.deleteProblemDisabled
        = true ∧
      (fetchProblemsForBelt s belt (ProblemsFetch.success [])).1.state.deleteBtnDisabled
        = true) ∧
    ((fetchProblemsForBelt s belt ProblemsFetch.failure).1.state.deleteProblemOptions
        = [("-- Error loading --", "")] ∧
      (fetchProblemsForBelt s belt ProblemsFetch.failure).1.state.deleteProblemDisabled
        = true ∧
      (fetchProblemsForBelt s belt ProblemsFetch.failure).1.state.deleteBtnDisabled
        = true) ∧
    ((fetchProblemsForBelt s belt ProblemsFetch.reject).1.state.deleteProblemDisabled
        = true ∧
      (fetchProblemsForBelt s belt ProblemsFetch.reject).1.state.deleteBtnDisabled
        = true) := by
  refine ⟨⟨?_, ?_, ?_, ?_⟩, ⟨?_, ?_, ?_⟩, ⟨?_, ?_, ?_⟩, ?_, ?_⟩ <;>
    simp [fetchProblemsForBelt]

/-- C5: a 2xx commit response displays the server message as success,
hides the verification section and selector container, and clears every
commit-form field; a non-2xx commit response displays the server message
as error and leaves the form fields, the visibility of the verification
section and selector container, the selector contents, and the batch
unchanged. Neither path rejects, and the busy flag ends cleared. -/
theorem commit_outcomes (s : UIState) (msg : String) :
    ((commitSubmit s (MsgFetch.response true msg)).1.state.statusMessages
        = s.statusMessages ++ [(msg, "success")] ∧
      (commitSubmit s (MsgFetch.response true msg)).1.state.verificationHidden = true ∧
      (commitSubmit s (MsgFetch.response true msg)).1.state.selectorContainerHidden = true ∧
      (commitSubmit s (MsgFetch.response true msg)).1.state.formTitle = "" ∧
      (commitSubmit s (MsgFetch.response true msg)).1.state.formTopic = "" ∧
      (commitSubmit s (MsgFetch.response true msg)).1.state.formReadme = "" ∧
      (commitSubmit s (MsgFetch.response true msg)).1.state.formSolution = "" ∧
      (commitSubmit s (MsgFetch.response true msg)).1.state.formBelt = "" ∧
      (commitSubmit s (MsgFetch.response true msg)).1.state.commitBusy = false ∧
      (commitSubmit s (MsgFetch.response true msg)).1.rejected = false) ∧
    ((commitSubmit s (MsgFetch.response false msg)).1.state.statusMessages
        = s.statusMessages ++ [(msg, "error")] ∧
      (commitSubmit s (MsgFetch.response false msg)).1.state.verificationHidden
        = s.verificationHidden ∧
      (commitSubmit s (MsgFetch.response false msg)).1.state.selectorContainerHidden
        = s.selectorContainerHidden ∧
      (commitSubmit s (MsgFetch.response false msg)).1.state.formTitle = s.formTitle ∧
      (commitSubmit s (MsgFetch.response false msg)).1.state.formTopic = s.formTopic ∧
      (commitSubmit s (MsgFetch.response false msg)).1.state.formReadme = s.formReadme ∧
      (commitSubmit s (MsgFetch.response false msg)).1.state.formSolution
        = s.formSolution ∧
      (commitSubmit s (MsgFetch.response false msg)).1.state.formBelt = s.formBelt ∧
      (commitSubmit s (MsgFetch.response false msg)).1.state.problemOptions
        = s.problemOptions ∧
      (commitSubmit s (MsgFetch.response false msg)).1.state.commitBusy = false ∧
      (commitSubmit s (MsgFetch.response false msg)).1.rejected = false) := by
  constructor <;> simp [commitSubmit, displayMessage, resetCommitForm]

/-- C6: a confirmed delete on a 2xx response issues exactly the delete
request carrying the form's belt and problem values followed by exactly
one refresh request for the currently selected belt, ends with the busy
flag cleared and the server message displayed as success; on a non-2xx
response it issues only the delete request, ends with the busy flag
cleared and the server message displayed as error; and while the delete
fetch is in flight (observed at a rejected fetch, which aborts the
handler there) the busy flag is set. -/
theorem delete_confirmed_requests (s : UIState) (msg : String)
    (ro : ProblemsFetch) :
    ((deleteSubmit s true (MsgFetch.response true msg) ro).2
        = [Request.deleteReq s.deleteBeltValue s.deleteProblemValue,
           Request.problemsReq s.deleteBeltValue] ∧
      (deleteSubmit s true (MsgFetch.response true msg) ro).1.state.deleteBtnBusy
        = false ∧
      (deleteSubmit s true (MsgFetch.response true msg) ro).1.state.statusMessages
        = s.statusMessages ++ [(msg, "success")]) ∧
    ((deleteSubmit s true (MsgFetch.response false msg) ro).2
        = [Request.deleteReq s.deleteBeltValue s.deleteProblemValue] ∧
      (deleteSubmit s true (MsgFetch.response false msg) ro).1.state.deleteBtnBusy
        = false ∧
      (deleteSubmit s true (MsgFetch.response false msg) ro).1.state.statusMessages
        = s.statusMessages ++ [(msg, "error")]) ∧
    (deleteSubmit s true MsgFetch.reject ro).1.state.deleteBtnBusy = true := by
  have hreq := fetchProblemsForBelt_requests
    (displayMessage { s with deleteBtnBusy := false } msg "success")
    s.deleteBeltValue ro
  have hframe := fetchProblemsForBelt_frame
    (displayMessage { s with deleteBtnBusy := false } msg "success")
    s.deleteBeltValue ro
  refine ⟨⟨?_, ?_, ?_⟩, ⟨?_, ?_, ?_⟩, ?_⟩ <;>
    simp_all [deleteSubmit, displayMessage]

/-- C7: populateVerificationForm copies the resolved item's four fields
into the review form and changes nothing else; when the index resolves to
no item it returns the state unchanged. -/
theorem populateVerificationForm_cases (s : UIState) (i : Nat) (p : Problem) :
    (s.generatedProblems[i]? = some p →
      (populateVerificationForm s i).formTitle = p.title ∧
      (populateVerificationForm s i).formTopic = p.topic ∧
      (populateVerificationForm s i).formReadme = p.readme ∧
      (populateVerificationForm s i).formSolution = p.solution ∧
      (populateVerificationForm s i).formBelt = s.formBelt ∧
      (populateVerificationForm s i).generatedProblems = s.generatedProblems ∧
      (populateVerificationForm s i).statusMessages = s.statusMessages) ∧
    (s.generatedProblems[i]? = none → populateVerificationForm s i = s) := by
  constructor <;> intro h <;> simp [populateVerificationForm, h]

/-- A concrete problem draft used to evaluate C7 at a concrete input. -/
def witnessProblem : Problem :=
  { title := "Two Sum", topic := "Arrays", readme := "readme body", solution := "sol body" }

/-- A concrete page state holding a one-element batch. -/
def witnessState : UIState :=
  { sampleState with generatedProblems := [witnessProblem] }

/-- C7 witness: at the concrete one-element batch, index 0 resolves and
the title is copied; index 1 does not resolve and the state is returned
unchanged. -/
theorem populateVerificationForm_cases_witness :
    (populateVerificationForm witnessState 0).formTitle = witnessProblem.title ∧
    populateVerificationForm witnessState 1 = witnessState :=
  ⟨((populateVerificationForm_cases witnessState 0 witnessProblem).1 (by rfl)).1,
   (populateVerificationForm_cases witnessState 1 witnessProblem).2 (by rfl)⟩

/-- C8: a delete submission with the confirmation dialog declined returns
before any work: the state is unchanged, no request is issued, no status
message is added, and nothing rejects. -/
theorem delete_declined_noop (s : UIState) (o : MsgFetch) (ro : ProblemsFetch) :
    (deleteSubmit s false o ro).1.state = s ∧
    (deleteSubmit s false o ro).2 = [] ∧
    (deleteSubmit s false o ro).1.rejected = false ∧
    (deleteSubmit s false o ro).1.state.statusMessages = s.statusMessages := by
  simp [deleteSubmit]

/-- C9: a commit always sends the review form's current live field
values, and leaves every entry of generatedProblems unchanged on the
success path, the failure path, and even when the fetch rejects. -/
theorem commit_preserves_batch (s : UIState) (ok : Bool) (msg : String) :
    (commitSubmit s (MsgFetch.response ok msg)).1.state.generatedProblems
      = s.generatedProblems ∧
    (commitSubmit s MsgFetch.reject).1.state.generatedProblems
      = s.generatedProblems ∧
    (commitSubmit s (MsgFetch.response ok msg)).2
      = [Request.commitReq s.formTitle s.formTopic s.formBelt s.formReadme
          s.formSolution] ∧
    (commitSubmit s MsgFetch.reject).2
      = [Request.commitReq s.formTitle s.formTopic s.formBelt s.formReadme
          s.formSolution] := by
  cases ok <;> simp [commitSubmit, displayMessage, resetCommitForm]

/-- C10: a delete-belt selector change to the empty value issues no
request and leaves the whole state (in particular the delete-problem
selector contents and both disabled flags) unchanged; a change to a
non-empty value issues exactly one /problems request for that belt. -/
theorem deleteBeltChange_guard (s : UIState) (v : String) (o : ProblemsFetch)
    (h : v ≠ "") :
    ((deleteBeltChange s "" o).1.state = s ∧
      (deleteBeltChange s "" o).2 = [] ∧
      (deleteBeltChange s "" o).1.rejected = false ∧
      (deleteBeltChange s "" o).1.state.deleteProblemOptions
        = s.deleteProblemOptions ∧
      (deleteBeltChange s "" o).1.state.deleteProblemDisabled
        = s.deleteProblemDisabled ∧
      (deleteBeltChange s "" o).1.state.deleteBtnDisabled = s.deleteBtnDisabled) ∧
    (deleteBeltChange s v o).2 = [Request.problemsReq v] := by
  refine ⟨⟨?_, ?_, ?_, ?_, ?_, ?_⟩, ?_⟩ <;>
    simp [deleteBeltChange, h, fetchProblemsForBelt_requests]

/-- C10 witness: evaluated at the initial page with the empty and a
non-empty belt value. -/
theorem deleteBeltChange_guard_witness :
    "White Belt" ≠ "" ∧
    (deleteBeltChange sampleState "" ProblemsFetch.failure).1.state = sampleState ∧
    (deleteBeltChange sampleState "White Belt" ProblemsFetch.failure).2
      = [Request.problemsReq "White Belt"] :=
  ⟨by decide,
   (deleteBeltChange_guard sampleState "White Belt" ProblemsFetch.failure
      (by decide)).1.1,
   (deleteBeltChange_guard sampleState "White Belt" ProblemsFetch.failure
      (by decide)).2⟩

end DsaAutoCode
